import Mathlib

/-!
Verification of the gdb-er debugger-session engine
(`gdb_service/main.py` and `gdb_service/native_gdb.py`).

The Python code is shallowly embedded: dynamically typed values become the
inductive `Val`, the `NativeGDBController` class becomes a structure whose
methods are pure state-passing functions, and the `GDBSession` class likewise.
Outbound effects (messages handed to `send_json`, commands handed to
`wrapper.write`) are collected in an explicit effect list `Out`.
-/

namespace GDBER

/-- Untyped values as they flow through the Python code: results of JSON
decoding and of the GDB/MI parser (None, str, int, bool, list, dict). -/
inductive Val where
  | null : Val
  | bool : Bool → Val
  | str : String → Val
  | int : Int → Val
  | list : List Val → Val
  | dict : List (String × Val) → Val

mutual

/-- Structural equality test on values (Python ==). -/
def Val.beq : Val → Val → Bool
  | .null, .null => true
  | .bool a, .bool b => a == b
  | .str a, .str b => a == b
  | .int a, .int b => a == b
  | .list a, .list b => Val.beqList a b
  | .dict a, .dict b => Val.beqDict a b
  | _, _ => false

/-- Elementwise equality test on value lists. -/
def Val.beqList : List Val → List Val → Bool
  | [], [] => true
  | a :: as, b :: bs => Val.beq a b && Val.beqList as bs
  | _, _ => false

/-- Elementwise equality test on key/value lists. -/
def Val.beqDict : List (String × Val) → List (String × Val) → Bool
  | [], [] => true
  | (k, a) :: as, (l, b) :: bs => k == l && Val.beq a b && Val.beqDict as bs
  | _, _ => false

end

instance : BEq Val := ⟨Val.beq⟩

/-- Python truthiness of a value: None and False are falsy, strings,
lists and dicts are falsy exactly when empty, integers when zero. -/
def Val.truthy : Val → Bool
  | .null => false
  | .bool b => b
  | .str s => !s.isEmpty
  | .int n => n != 0
  | .list xs => !xs.isEmpty
  | .dict kvs => !kvs.isEmpty

/-- Python `v.get(k)`: dictionary lookup returning None for a missing key, modelled
as an `Option`. (The Python code only ever calls `.get` on dict payloads;
a non-dict here is mapped to a missing key.) -/
def Val.get (v : Val) (k : String) : Option Val :=
  match v with
  | .dict kvs => kvs.lookup k
  | _ => none

/-- Python `v.get(k, d)`: dictionary lookup with a default. -/
def Val.getD (v : Val) (k : String) (d : Val) : Val :=
  (v.get k).getD d

/-- The Python value of an optional lookup: a missing key is None. -/
def optVal (o : Option Val) : Val :=
  o.getD .null

/-- Truthiness of an optional lookup result (missing key is falsy None). -/
def optTruthy (o : Option Val) : Bool :=
  (optVal o).truthy

/-- Rendering of a value inside a Python f-string (its `str()`). Only the
None / str / int / bool cases are exercised by any theorem below; container
values would render through Python repr, abbreviated here. -/
def Val.pystr : Val → String
  | .null => "None"
  | .bool b => if b then "True" else "False"
  | .str s => s
  | .int n => toString n
  | .list _ => "[...]"
  | .dict _ => "\x7b...\x7d"

/-- f-string rendering of an optional lookup (a missing key prints None). -/
def pystrOpt (o : Option Val) : String :=
  (optVal o).pystr

/-!
## ProcessChannel: `NativeGDBController` (native_gdb.py)

The controller state is its three instance attributes.  System interaction is
abstracted by parameters: the file descriptor returned by `pty.openpty()`, the
`os.path.exists` predicate, and whether `subprocess.Popen` succeeds.  `write`
returns the byte strings actually written to the terminal master.
-/

/-- The three attributes set by `NativeGDBController.__init__`:
`process` (a live subprocess handle or None), `running`, `master_fd`. -/
structure NativeGDBController where
  process : Bool
  running : Bool
  master_fd : Option Nat

/-- Constructor `__init__`: process None, running True (allow the loop to start and wait
for the descriptor), master_fd None. -/
def NativeGDBController.init0 : NativeGDBController :=
  { process := false, running := true, master_fd := none }

/-- Python truthiness of the optional descriptor attribute
(`if self.master_fd:`): None is falsy, and so is the integer 0. -/
def fdTruthy : Option Nat → Bool
  | none => false
  | some n => n != 0

/-- The channel is open exactly when the master descriptor attribute is
truthy (this is the condition `write` tests). -/
def NativeGDBController.isOpen (c : NativeGDBController) : Bool :=
  fdTruthy c.master_fd

/-- Errors raised by `start`. -/
inductive StartError where
  | notFound (path : Val)
  | spawnError

/-- Rendering `str(e)` of a start error. `FileNotFoundError(f"Binary not found: ...")`
prints its message; the text of a spawn error is not exercised below. -/
def StartError.msg : StartError → String
  | .notFound p => "Binary not found: " ++ p.pystr
  | .spawnError => "spawn failed"

/-- Method `start(executable)`, lines 18-44 of native_gdb.py.
Assigns `self.master_fd` from `pty.openpty()` first; then, if `executable`
is truthy and does not exist, raises `FileNotFoundError` before `Popen`
(leaving the freshly assigned master_fd attribute in place).  If `Popen`
raises, the descriptors are closed at the OS level and the error re-raised;
note the `master_fd` *attribute* keeps its value there too.  On success the
subprocess handle is stored and `running` set. -/
def NativeGDBController.start (c : NativeGDBController) (executable : Option Val)
    (fd : Nat) (path_exists : Val → Bool) (spawnOk : Bool) :
    NativeGDBController × Option StartError :=
  let c := { c with master_fd := some fd }
  if optTruthy executable && !path_exists (optVal executable) then
    (c, some (.notFound (optVal executable)))
  else if !spawnOk then
    (c, some .spawnError)
  else
    ({ c with process := true, running := true }, none)

/-- Method `stop()`, lines 46-61: terminate/kill the process if any, clear the
handle, close and clear the master descriptor, clear `running`. -/
def NativeGDBController.stop (c : NativeGDBController) : NativeGDBController :=
  let _ := c
  { process := false, running := false, master_fd := none }

/-- Method `write(command)`, lines 63-66: if `self.master_fd` is truthy, write
`command + "\n"` to the terminal master; otherwise do nothing. -/
def NativeGDBController.write (c : NativeGDBController) (command : String) :
    NativeGDBController × List String :=
  if fdTruthy c.master_fd then (c, [command ++ "\n"]) else (c, [])

/-!
## ProtocolParser: `_parse_line` (native_gdb.py lines 109-144)

`parse_response` (the external pygdbmi library) maps one raw line to a parsed
record `{type, message, payload, token}` or raises; it is abstracted as a
function `String → Option Val` (None covering both a raised exception and a
falsy result, which the method turns into None).  The mapping of an already
parsed record to the dispatched event is the code of the repository and is
embedded literally below.
-/

/-- Console unescaping: `content.replace(r...)` replaces each literal
backslash-quote with a quote and each literal backslash-n with a newline. -/
def unescapeConsole (s : String) : String :=
  (s.replace "\\\"" "\"").replace "\\n" "\n"

/-- The body of `_parse_line` after `parse_response`, acting on the parsed
record.  Every KeyError / AttributeError raised by the Python body is caught
by the bare `except` and becomes None; those cases are mapped to `none`
directly.  Records of an unhandled type (for example pygdbmi `log` or
`target` records) fall through to `return parsed`: the record itself. -/
def mapParsedRecord (parsed : Val) : Option Val :=
  match parsed.get "type" with
  | some (.str "console") =>
    match parsed.get "payload" with
    | some (.str content) =>
      if content.isEmpty then none
      else some (.dict [("type", .str "console"),
                        ("payload", .str (unescapeConsole content))])
    | some _ => none   -- falsy payload → None; truthy non-string → .replace raises → None
    | none => none     -- KeyError → None
  | some (.str "notify") =>
    match parsed.get "message", parsed.get "payload" with
    | some m, some p =>
      some (.dict [("type", .str "notify"), ("message", m), ("payload", p)])
    | _, _ => none     -- KeyError → None
  | some (.str "result") =>
    match parsed.get "message", parsed.get "payload", parsed.get "token" with
    | some m, some p, some token =>
      let m2 :=
        match p with
        | .dict kvs =>
          if (kvs.lookup "stack").isSome then Val.str "stack"
          else if (kvs.lookup "locals").isSome then Val.str "locals"
          else m
        | _ => m
      let base := [("type", Val.str "result"), ("message", m2), ("payload", p)]
      some (.dict (if token.truthy then base ++ [("token", token)] else base))
    | _, _, _ => none  -- KeyError → None
  | some (.str "output") => none
  | some _ => some parsed
  | none => none       -- KeyError on parsed[type] → None

/-- Method `_parse_line(line)`: run the external parser, return None when it raises
or yields a falsy record, otherwise map the record. -/
def NativeGDBController.parse_line (parse_response : String → Option Val)
    (line : String) : Option Val :=
  match parse_response line with
  | none => none
  | some parsed => if !parsed.truthy then none else mapParsedRecord parsed

/-!
## `run_event_loop` (native_gdb.py lines 68-106)

Each loop iteration is driven by one scripted outcome of the
select-then-read step: a select timeout, a chunk of decoded bytes (an empty
chunk is the zero-length EOF read), or an OSError from `os.read`.  The loop
body contains no assignment to `self.running` or `self.master_fd`, so the
controller state is passed in unchanged and is unchanged when the loop ends;
the function returns the events dispatched to `on_event` and how the loop
ended.
-/

/-- One scripted outcome of the select/read step of the loop. -/
inductive ReadStep where
  | timeout
  | chunk (data : String)
  | oserror

/-- How a run of the loop ended. -/
inductive LoopExit where
  | scriptEnd
  | notRunning
  | eofBreak
  | errBreak

/-- Split a character list at every newline (the semantics of repeatedly
splitting the byte buffer at its first newline). -/
def splitNl : List Char → List (List Char)
  | [] => [[]]
  | ch :: cs =>
    if ch = '\n' then [] :: splitNl cs
    else
      match splitNl cs with
      | [] => [[ch]]
      | l :: ls => (ch :: l) :: ls

/-- Python `str.strip()`: drop whitespace from both ends. -/
def pyStrip (s : String) : String :=
  String.mk
    ((((s.data.dropWhile Char.isWhitespace).reverse).dropWhile
        Char.isWhitespace).reverse)

/-- The inner while-newline-in-buffer splitting loop: extract every complete
newline-terminated line, keep the remainder as the new buffer. -/
def extractLines (buffer : String) : List String × String :=
  let parts := (splitNl buffer.data).map String.mk
  (parts.dropLast, (parts.getLast?).getD "")

/-- Method `run_event_loop(on_event)` over a finite script of read outcomes.
`pr` abstracts `parse_response` (lenient decoding of the chunks themselves is
left to the script, which carries decoded text). -/
def NativeGDBController.run_event_loop (pr : String → Option Val)
    (c : NativeGDBController) : String → List ReadStep → List Val × LoopExit
  | _, [] => ([], .scriptEnd)
  | buffer, step :: rest =>
    if !c.running then ([], .notRunning)
    else if !fdTruthy c.master_fd then
      -- `if not self.master_fd: await asyncio.sleep(0.1); continue`
      NativeGDBController.run_event_loop pr c buffer rest
    else
      match step with
      | .timeout => NativeGDBController.run_event_loop pr c buffer rest
      | .oserror => ([], .errBreak)
      | .chunk data =>
        if data.isEmpty then ([], .eofBreak)   -- `if not chunk: break`
        else
          let buffer := buffer ++ data
          let (lines, buffer) := extractLines buffer
          let evs := lines.filterMap fun l =>
            NativeGDBController.parse_line pr (pyStrip l)
          let (evs2, ex) := NativeGDBController.run_event_loop pr c buffer rest
          (evs ++ evs2, ex)

/-!
## Session: `GDBSession` (main.py)

Transports (websockets) are identified by numbers.  Effects are collected in
order: `Out.sent dest msg` records one invocation of `send_json(msg)` with the
session websocket `dest` at that moment (`dest = none` means no transport was
attached, so nothing left the engine); `Out.wrote cmd` records one invocation
of `self.wrapper.write(cmd)` (whose channel-side gating is
`NativeGDBController.write` above).  Send success is assumed: the
`except` arm of `send_json` (a TransportSendFailure clearing the transport)
is not needed by any claim.  The log timestamp, `datetime.now(utc)` in
Python, is threaded as an explicit string parameter. -/

/-- One outbound effect of the session code. -/
inductive Out where
  | sent (dest : Option Nat) (msg : Val)
  | wrote (cmd : String)

/-- The command of a `wrote` effect. -/
def Out.writeOf : Out → Option String
  | .wrote cmd => some cmd
  | _ => none

/-- Mutable state of one `GDBSession` (main.py lines 13-28). -/
structure GDBSession where
  status : String
  stack : Val
  «variables» : Val
  location : Val
  websocket : Option Nat
  log_history : List Val

/-- Constructor `__init__`: status Ready, empty stack and variables, no location, no
websocket, empty log history. -/
def GDBSession.init0 : GDBSession :=
  { status := "Ready", stack := .list [], «variables» := .list [],
    location := .null, websocket := none, log_history := [] }

/-- Method `to_dict()` (lines 30-39): the full state snapshot message. -/
def GDBSession.to_dict (s : GDBSession) : Val :=
  .dict [("type", .str "state_update"),
         ("payload", .dict [("status", .str s.status),
                            ("location", s.location),
                            ("stack", s.stack),
                            ("variables", s.«variables»)])]

/-- Method `send_json(data)` (lines 63-69), success assumed: record the message
together with the currently attached transport. -/
def GDBSession.send_json (s : GDBSession) (data : Val) : GDBSession × List Out :=
  (s, [.sent s.websocket data])

/-- The `log_event` message built by `log` (lines 75-82). -/
def logMsg (level text ts : String) : Val :=
  .dict [("type", .str "log_event"),
         ("payload", .dict [("level", .str level), ("text", .str text),
                            ("timestamp", .str ts)])]

/-- Method `log(level, text)` (lines 71-85): append the message to the history,
`pop(0)` when the length exceeds 50, then send it. -/
def GDBSession.log (s : GDBSession) (level text ts : String) :
    GDBSession × List Out :=
  let msg := logMsg level text ts
  let hist := s.log_history ++ [msg]
  let hist := if hist.length > 50 then hist.drop 1 else hist
  GDBSession.send_json { s with log_history := hist } msg

/-- Method `attach(ws)` (lines 41-57): best-effort close of any previous transport
(no modelled effect), replace it, send the snapshot, then replay
`log_history[-10:]` in order. -/
def GDBSession.attach (s : GDBSession) (ws : Nat) : GDBSession × List Out :=
  let s := { s with websocket := some ws }
  let (s, o1) := s.send_json s.to_dict
  let replay := s.log_history.drop (s.log_history.length - 10)
  (s, o1 ++ replay.map (fun e => Out.sent s.websocket e))

/-- Method `detach()` (lines 59-61): clear the transport reference only. -/
def GDBSession.detach (s : GDBSession) : GDBSession :=
  { s with websocket := none }

/-- The token dispatch of the result branch (main.py lines 143-199). -/
def GDBSession.resultDispatch (s : GDBSession) (payload : Val)
    (token : Option Val) : GDBSession × List Out :=
  if token == some (.int 101) then          -- Stack
    let s := { s with stack := payload.getD "stack" (.list []) }
    s.send_json s.to_dict
  else if token == some (.int 102) then     -- Locals
    let s := { s with «variables» := payload.getD "locals" (.list []) }
    s.send_json s.to_dict
  else if token == some (.int 201) then     -- Breakpoint Created
    let bkpt := payload.getD "bkpt" (.dict [])
    if bkpt.truthy then
      s.send_json (.dict [("type", .str "breakpoint_created"),
        ("payload", .dict
          [("id", optVal (bkpt.get "number")),
           ("file", if optTruthy (bkpt.get "fullname")
                    then optVal (bkpt.get "fullname")
                    else optVal (bkpt.get "file")),
           ("line", optVal (bkpt.get "line"))])])
    else (s, [])
  else if token == some (.int 301) then     -- var-create
    s.send_json (.dict [("type", .str "var_created"),
      ("payload", .dict
        [("name", optVal (payload.get "name")),
         ("numchild", optVal (payload.get "numchild")),
         ("value", optVal (payload.get "value")),
         ("type", optVal (payload.get "type"))])])
  else if token == some (.int 302) then     -- var-list-children
    s.send_json (.dict [("type", .str "var_children"),
      ("payload", .dict [("children", payload.getD "children" (.list []))])])
  else if token == some (.int 401) then     -- Memory read
    let mem := payload.getD "memory" (.list [])
    let contents :=
      if mem.truthy then
        match mem with
        | .list xs => String.join (xs.map fun m =>
            match m.get "contents" with
            | some (.str c) => c
            | _ => "")
        | _ => ""
      else ""
    let address :=
      if mem.truthy then
        match mem with
        | .list (m0 :: _) => m0.getD "begin" (.str "0x0")
        | _ => .str "0x0"
      else .str "0x0"
    s.send_json (.dict [("type", .str "memory_read"),
      ("payload", .dict [("address", address),
                         ("contents", .str contents)])])
  else (s, [])

/-- The error-handling block at the end of the result branch
(main.py lines 201-210): a fresh `if`, not chained to the token dispatch. -/
def GDBSession.resultErrorCheck (s : GDBSession) (payload : Val)
    (msg : Option Val) (ts : String) : GDBSession × List Out :=
  if optTruthy (payload.get "msg") && !optTruthy (payload.get "bkpt") &&
     !optTruthy (payload.get "name") && !optTruthy (payload.get "children") then
    let error_msg := optVal (payload.get "msg")
    let (s, oa) := s.log "error" ("GDB Error: " ++ error_msg.pystr) ts
    let (s, ob) := s.send_json (.dict [("type", .str "error"),
                                       ("payload", error_msg)])
    (s, oa ++ ob)
  else if msg == some (.str "error") then
    let error_msg := payload.getD "msg" (.str "Unknown Error")
    let (s, oa) := s.log "error" ("Error: " ++ error_msg.pystr) ts
    let (s, ob) := s.send_json (.dict [("type", .str "error"),
                                       ("payload", error_msg)])
    (s, oa ++ ob)
  else (s, [])

/-- Method `on_gdb_event(event)` (main.py lines 87-210).  A faithful transcription:
the notify branch handles only the messages "running" and "stopped"; the
result branch dispatches on the token and then runs the error-handling block
(a fresh `if`, not chained to the token dispatch).  Payload fields are
protocol dictionaries; a malformed non-dict field (which would raise inside
the Python handler and be swallowed by the read loop) reads as empty here
and is not exercised by any theorem. -/
def GDBSession.on_gdb_event (s : GDBSession) (event : Val) (ts : String) :
    GDBSession × List Out :=
  if !event.truthy then (s, []) else   -- `if not event: return`
  let msg_type := event.get "type"
  let msg := event.get "message"
  let payload := (event.get "payload").getD (.dict [])
  -- 1. Console
  if msg_type == some (.str "console") then
    s.send_json event
  -- 2. Notifications
  else if msg_type == some (.str "notify") then
    if msg == some (.str "running") then
      let s := { s with status := "Running", location := .null,
                        stack := .list [], «variables» := .list [] }
      let (s, o1) := s.send_json s.to_dict
      let (s, o2) := s.log "info" "[Running]" ts
      (s, o1 ++ o2)
    else if msg == some (.str "stopped") then
      let reason := payload.get "reason"
      if reason == some (.str "exited-normally") || reason == some (.str "exited") then
        let s := { s with status := "Exited", location := .null,
                          stack := .list [], «variables» := .list [] }
        let (s, o1) := s.send_json s.to_dict
        let (s, o2) := s.log "info" ("[Exited] Reason: " ++ pystrOpt reason) ts
        (s, o1 ++ o2)
      else
        let s := { s with status := "Paused" }
        let frame := payload.getD "frame" (.dict [])
        let s :=
          if frame.truthy then
            { s with location := .dict [("file", optVal (frame.get "file")),
                                        ("line", optVal (frame.get "line")),
                                        ("func", optVal (frame.get "func"))] }
          else s
        let (s, o1) := s.send_json s.to_dict
        let log_text := "[Paused] " ++ pystrOpt reason ++
          (if s.location.truthy then
             " at " ++ pystrOpt (s.location.get "file") ++ ":" ++
               pystrOpt (s.location.get "line")
           else "")
        let (s, o2) := s.log "info" log_text ts
        -- Auto-Fetch Context
        (s, o1 ++ o2 ++ [.wrote "101-stack-list-frames",
                         .wrote "102-stack-list-locals --simple-values"])
    else (s, [])
  -- 3. Results
  else if msg_type == some (.str "result") then
    let token := event.get "token"
    let r1 := s.resultDispatch payload token
    -- Error Handling (a separate `if` running after the token dispatch)
    let r2 := GDBSession.resultErrorCheck r1.1 payload msg ts
    (r2.1, r1.2 ++ r2.2)
  else (s, [])

/-- Method `handle_command(action, args)` (main.py lines 212-260), including the
command-translator chain.  The channel parameters `fd`, `path_exists` and
`spawnOk` feed `NativeGDBController.start` for the init action. -/
def GDBSession.handle_command (s : GDBSession) (c : NativeGDBController)
    (action : String) (args : List (String × Val))
    (fd : Nat) (path_exists : Val → Bool) (spawnOk : Bool) (ts : String) :
    GDBSession × NativeGDBController × List Out :=
  if action == "init" then
    let exe := args.lookup "executable"
    match NativeGDBController.start c exe fd path_exists spawnOk with
    | (c2, none) =>
      let s := { s with status := "Ready", stack := .list [], «variables» := .list [] }
      let (s, o) := s.send_json s.to_dict
      (s, c2, o)
    | (c2, some e) =>
      let (s, o1) := s.log "error" ("Failed to start GDB: " ++ e.msg) ts
      let (s, o2) := s.send_json (.dict [("type", .str "error"),
        ("payload", .str ("Startup Failed: " ++ e.msg))])
      (s, c2, o1 ++ o2)
  else if action == "stop" then
    let c2 := c.stop
    let s := { s with status := "Ready" }
    let (s, o) := s.send_json s.to_dict
    (s, c2, o)
  else if action == "get_context" then
    -- writes both auto-fetch commands and returns
    (s, c, [.wrote "101-stack-list-frames",
            .wrote "102-stack-list-locals --simple-values"])
  else
    let cmd :=
      if action == "run" then
        if optTruthy (args.lookup "stop_at_entry") then "-exec-run --start"
        else "-exec-run"
      else if action == "next" then "-exec-next"
      else if action == "step" then "-exec-step"
      else if action == "continue" then "-exec-continue"
      else if action == "break" then
        "201-break-insert " ++ pystrOpt (args.lookup "location")
      else if action == "remove_breakpoint" then
        "-break-delete " ++ pystrOpt (args.lookup "id")
      else if action == "var_create" then
        "301-var-create - * " ++ pystrOpt (args.lookup "expression")
      else if action == "var_list_children" then
        "302-var-list-children --all-values " ++ pystrOpt (args.lookup "name")
      else if action == "read_memory" then
        "401-data-read-memory-bytes " ++ pystrOpt (args.lookup "address") ++ " " ++
          ((args.lookup "count").getD (.int 256)).pystr
      else action   -- permissive passthrough: `cmd = action`
    (s, c, [.wrote cmd])

/-!
## Theorems
-/

/-- A notify "stopped" event as produced by the parser, with payload `p`. -/
def stoppedEvent (p : List (String × Val)) : Val :=
  .dict [("type", .str "notify"), ("message", .str "stopped"),
         ("payload", .dict p)]

/-- A nonempty string value is truthy. -/
theorem str_truthy_of_ne (p : String) (hp : p ≠ "") :
    (Val.str p).truthy = true := by
  have hfalse : p.isEmpty = false := by
    rw [Bool.eq_false_iff]
    simpa [String.isEmpty_iff] using hp
  simp [Val.truthy, hfalse]

/-- One `log` call keeps the history within the 50-entry bound. -/
theorem log_step_length_le (t : GDBSession) (level text ts : String)
    (h : t.log_history.length ≤ 50) :
    ((GDBSession.log t level text ts).1).log_history.length ≤ 50 := by
  simp only [GDBSession.log, GDBSession.send_json]
  split
  · simp only [List.length_drop, List.length_append, List.length_singleton]
    omega
  · next hle =>
    simp only [not_lt, List.length_append, List.length_singleton] at hle
    simpa using hle

/-- C8: for every session and every sequence of log appends, the log
history length never exceeds 50 entries, and an append that would exceed the
capacity evicts exactly the oldest entry (FIFO): from a full history of 50,
the new history is the old one without its head, with the new entry at the
end. -/
theorem log_history_ring_buffer (s : GDBSession)
    (entries : List ((String × String) × String))
    (h : s.log_history.length ≤ 50) :
    ((entries.foldl (fun t e => (GDBSession.log t e.1.1 e.1.2 e.2).1) s).log_history.length ≤ 50)
    ∧ (∀ level text ts, s.log_history.length = 50 →
        ((GDBSession.log s level text ts).1).log_history =
          s.log_history.drop 1 ++ [logMsg level text ts]) := by
  constructor
  · induction entries generalizing s with
    | nil => simpa using h
    | cons e rest ih => exact ih _ (log_step_length_le s e.1.1 e.1.2 e.2 h)
  · intro level text ts h50
    simp only [GDBSession.log, GDBSession.send_json]
    rw [if_pos (by simp [h50]), List.drop_append_of_le_length (by omega)]

/-- Witness for C8 at a full 50-entry history. -/
theorem log_history_ring_buffer_witness :
    (({ GDBSession.init0 with
        log_history := List.replicate 50 (logMsg "info" "x" "t0") }).log_history.length ≤ 50)
    ∧ ((([] : List ((String × String) × String)).foldl
          (fun t e => (GDBSession.log t e.1.1 e.1.2 e.2).1)
          { GDBSession.init0 with
            log_history := List.replicate 50 (logMsg "info" "x" "t0") }).log_history.length ≤ 50
       ∧ (∀ level text ts,
            ({ GDBSession.init0 with
               log_history := List.replicate 50 (logMsg "info" "x" "t0") }
              : GDBSession).log_history.length = 50 →
            ((GDBSession.log
                { GDBSession.init0 with
                  log_history := List.replicate 50 (logMsg "info" "x" "t0") }
                level text ts).1).log_history =
              (List.replicate 50 (logMsg "info" "x" "t0")).drop 1 ++ [logMsg level text ts])) :=
  ⟨by simp, log_history_ring_buffer _ [] (by simp)⟩

/-- C4: `write` never changes the channel state; on a channel that is not
open (in particular one closed by `stop`) it writes nothing and raises no
error, and on an open channel it writes exactly the command with one newline
appended.  (The session is not touched at all: `write` does not receive it.) -/
theorem write_closed_is_noop (c : NativeGDBController) (cmd : String) :
    (c.write cmd).1 = c
    ∧ (c.isOpen = false → (c.write cmd).2 = [])
    ∧ (c.isOpen = true → (c.write cmd).2 = [cmd ++ "\n"])
    ∧ ((c.stop).write cmd).2 = [] := by
  refine ⟨?_, ?_, ?_, rfl⟩
  · simp only [NativeGDBController.write]
    split <;> rfl
  · intro h
    simp only [NativeGDBController.isOpen] at h
    simp [NativeGDBController.write, h]
  · intro h
    simp only [NativeGDBController.isOpen] at h
    simp [NativeGDBController.write, h]

/-- Witness for C4: a stopped channel is not open and `write` is a no-op on
it; a channel holding a descriptor is open and `write` emits the bytes. -/
theorem write_closed_is_noop_witness :
    ((NativeGDBController.isOpen ⟨false, false, none⟩ = false
      ∧ ((⟨false, false, none⟩ : NativeGDBController).write "-exec-next").2 = [])
     ∧ (NativeGDBController.isOpen ⟨true, true, some 5⟩ = true
      ∧ ((⟨true, true, some 5⟩ : NativeGDBController).write "-exec-next").2 =
          ["-exec-next" ++ "\n"])) :=
  ⟨⟨rfl, (write_closed_is_noop ⟨false, false, none⟩ "-exec-next").2.1 rfl⟩,
   ⟨rfl, (write_closed_is_noop ⟨true, true, some 5⟩ "-exec-next").2.2.1 rfl⟩⟩

/-- C9: when `start` fails with NotFound on a missing executable path,
the pseudo-terminal master descriptor allocated before the existence check
stays set on the channel (and no process is spawned), so a subsequent
`write` performs an actual write instead of the silent no-op of a
channel that is not open. -/
theorem start_notfound_leaks_pty (c : NativeGDBController) (p : String)
    (fd : Nat) (path_exists : Val → Bool) (spawnOk : Bool) (cmd : String)
    (hp : p ≠ "") (hfd : fd ≠ 0) (hex : path_exists (.str p) = false) :
    (NativeGDBController.start c (some (.str p)) fd path_exists spawnOk).2 =
      some (.notFound (.str p))
    ∧ (NativeGDBController.start c (some (.str p)) fd path_exists spawnOk).1.master_fd =
        some fd
    ∧ (NativeGDBController.start c (some (.str p)) fd path_exists spawnOk).1.process =
        c.process
    ∧ ((NativeGDBController.start c (some (.str p)) fd path_exists spawnOk).1.write
         cmd).2 = [cmd ++ "\n"] := by
  have ht : optTruthy (some (Val.str p)) = true := by
    simp [optTruthy, optVal, str_truthy_of_ne p hp]
  simp [NativeGDBController.start, NativeGDBController.write, optVal,
        ht, hex, fdTruthy, hfd]

/-- Witness for C9 at a concrete missing path. -/
theorem start_notfound_leaks_pty_witness :
    ("/nonexistent/path" ≠ "" ∧ (5 : Nat) ≠ 0
     ∧ (fun _ => false : Val → Bool) (.str "/nonexistent/path") = false)
    ∧ ((NativeGDBController.start NativeGDBController.init0
          (some (.str "/nonexistent/path")) 5 (fun _ => false) true).1.write
            "-exec-run").2 = ["-exec-run" ++ "\n"] :=
  ⟨⟨by decide, by decide, rfl⟩,
   (start_notfound_leaks_pty NativeGDBController.init0 "/nonexistent/path" 5
      (fun _ => false) true "-exec-run" (by decide) (by decide) rfl).2.2.2⟩

/-- C10: the stop action stops the process channel and forces the status
back to Ready, but leaves stack, variables and location at their pre-stop
values; the snapshot broadcast right after therefore reports status Ready
together with the stale stack, variables and location. -/
theorem stop_action_keeps_stale_context (s : GDBSession)
    (c : NativeGDBController) (args : List (String × Val)) (fd : Nat)
    (path_exists : Val → Bool) (spawnOk : Bool) (ts : String) :
    (s.handle_command c "stop" args fd path_exists spawnOk ts).1.status = "Ready"
    ∧ (s.handle_command c "stop" args fd path_exists spawnOk ts).1.stack = s.stack
    ∧ (s.handle_command c "stop" args fd path_exists spawnOk ts).1.«variables» =
        s.«variables»
    ∧ (s.handle_command c "stop" args fd path_exists spawnOk ts).1.location =
        s.location
    ∧ (s.handle_command c "stop" args fd path_exists spawnOk ts).2.1.running = false
    ∧ (s.handle_command c "stop" args fd path_exists spawnOk ts).2.1.master_fd = none
    ∧ (s.handle_command c "stop" args fd path_exists spawnOk ts).2.2 =
        [Out.sent s.websocket (.dict [("type", .str "state_update"),
          ("payload", .dict [("status", .str "Ready"), ("location", s.location),
                             ("stack", s.stack), ("variables", s.«variables»)])])] :=
  ⟨rfl, rfl, rfl, rfl, rfl, rfl, rfl⟩

/-- C2: for every notify "stopped" event whose payload reason is outside
exited / exited-normally, the status becomes Paused, the location is set from
the payload frame when one is present (file, line, func), a full state
snapshot is the first emission, and exactly two follow-up commands are handed
to the process channel, bearing the stack token 101 and the locals token 102,
unconditionally on every such pause. -/
theorem stopped_pause_autofetch (s : GDBSession) (p : List (String × Val))
    (ts : String)
    (h1 : (Val.get (.dict p) "reason" == some (Val.str "exited-normally")) = false)
    (h2 : (Val.get (.dict p) "reason" == some (Val.str "exited")) = false) :
    (s.on_gdb_event (stoppedEvent p) ts).1.status = "Paused"
    ∧ (((Val.dict p).getD "frame" (.dict [])).truthy = true →
        (s.on_gdb_event (stoppedEvent p) ts).1.location = .dict
          [("file", optVal (((Val.dict p).getD "frame" (.dict [])).get "file")),
           ("line", optVal (((Val.dict p).getD "frame" (.dict [])).get "line")),
           ("func", optVal (((Val.dict p).getD "frame" (.dict [])).get "func"))])
    ∧ (s.on_gdb_event (stoppedEvent p) ts).2.filterMap Out.writeOf =
        ["101-stack-list-frames", "102-stack-list-locals --simple-values"]
    ∧ (s.on_gdb_event (stoppedEvent p) ts).2.head? =
        some (.sent s.websocket (s.on_gdb_event (stoppedEvent p) ts).1.to_dict) := by
  have e0 : (stoppedEvent p).truthy = true := rfl
  have e1 : Val.get (stoppedEvent p) "type" = some (Val.str "notify") := rfl
  have e2 : Val.get (stoppedEvent p) "message" = some (Val.str "stopped") := rfl
  have e3 : (Val.get (stoppedEvent p) "payload").getD (Val.dict []) = Val.dict p := rfl
  have f1 : (some (Val.str "notify") == some (Val.str "console")) = false := rfl
  have f2 : (some (Val.str "notify") == some (Val.str "notify")) = true := rfl
  have f3 : (some (Val.str "stopped") == some (Val.str "running")) = false := rfl
  have f4 : (some (Val.str "stopped") == some (Val.str "stopped")) = true := rfl
  have hcond : (Val.get (Val.dict p) "reason" == some (Val.str "exited-normally") ||
      Val.get (Val.dict p) "reason" == some (Val.str "exited")) = false := by
    rw [h1, h2]
    rfl
  simp only [GDBSession.on_gdb_event, e0, e1, e2, e3, f1, f2, f3, f4, hcond,
             Bool.not_true, Bool.false_eq_true, if_false, if_true,
             Bool.true_eq_false, GDBSession.send_json, GDBSession.log,
             GDBSession.to_dict]
  have g : ∀ x y z : Val,
      (Val.dict [("file", x), ("line", y), ("func", z)]).truthy = true :=
    fun _ _ _ => rfl
  by_cases hf : ((Val.dict p).getD "frame" (.dict [])).truthy = true
  · simp [hf, g, Out.writeOf, logMsg]
  · simp only [Bool.not_eq_true] at hf
    simp [hf, Out.writeOf, logMsg]

/-- A concrete breakpoint-hit payload with a frame, used by the C2 witness. -/
def pauseWitnessPayload : List (String × Val) :=
  [("reason", .str "breakpoint-hit"),
   ("frame", .dict [("file", .str "main.c"), ("line", .int 12),
                    ("func", .str "main")])]

/-- Witness for C2 at a concrete breakpoint-hit stop. -/
theorem stopped_pause_autofetch_witness :
    ((Val.get (.dict pauseWitnessPayload) "reason" ==
        some (Val.str "exited-normally")) = false)
    ∧ ((Val.get (.dict pauseWitnessPayload) "reason" ==
        some (Val.str "exited")) = false)
    ∧ (GDBSession.init0.on_gdb_event (stoppedEvent pauseWitnessPayload)
        "t0").1.status = "Paused"
    ∧ (GDBSession.init0.on_gdb_event (stoppedEvent pauseWitnessPayload)
        "t0").2.filterMap Out.writeOf =
        ["101-stack-list-frames", "102-stack-list-locals --simple-values"] :=
  ⟨rfl, rfl,
   (stopped_pause_autofetch GDBSession.init0 pauseWitnessPayload "t0" rfl rfl).1,
   (stopped_pause_autofetch GDBSession.init0 pauseWitnessPayload "t0"
      rfl rfl).2.2.1⟩

/-- The token dispatch never changes the status. -/
theorem resultDispatch_keeps_status (s : GDBSession) (payload : Val)
    (token : Option Val) :
    (s.resultDispatch payload token).1.status = s.status := by
  simp only [GDBSession.resultDispatch, GDBSession.send_json]
  repeat' split
  all_goals rfl

/-- The error-handling block never changes the status. -/
theorem resultErrorCheck_keeps_status (s : GDBSession) (payload : Val)
    (msg : Option Val) (ts : String) :
    (GDBSession.resultErrorCheck s payload msg ts).1.status = s.status := by
  simp only [GDBSession.resultErrorCheck, GDBSession.log, GDBSession.send_json]
  repeat' split
  all_goals rfl

/-- A result event never changes the session status; in particular the
error-handling block at the end of the result branch leaves it untouched. -/
theorem result_event_keeps_status (s : GDBSession) (ev : Val) (ts : String)
    (hty : ev.get "type" = some (.str "result")) :
    ((s.on_gdb_event ev ts).1).status = s.status := by
  by_cases htr : ev.truthy = true
  · have f1 : (some (Val.str "result") == some (Val.str "console")) = false := rfl
    have f2 : (some (Val.str "result") == some (Val.str "notify")) = false := rfl
    have f3 : (some (Val.str "result") == some (Val.str "result")) = true := rfl
    simp only [GDBSession.on_gdb_event, htr, hty, f1, f2, f3, Bool.not_true,
               Bool.false_eq_true, if_false, if_true]
    rw [resultErrorCheck_keeps_status, resultDispatch_keeps_status]
  · simp only [Bool.not_eq_true] at htr
    simp [GDBSession.on_gdb_event, htr]

/-- C5: an init action whose executable path does not exist fails with
NotFound before spawning (process handle and running flag are untouched),
the engine emits an error-level log entry and an error-typed message, and
the session status is unchanged — a session in status Ready remains Ready;
more generally a result event, in particular one taking the error-handling
path, never changes the status. -/
theorem init_missing_executable (s : GDBSession) (c : NativeGDBController)
    (args : List (String × Val)) (p : String) (fd : Nat)
    (path_exists : Val → Bool) (spawnOk : Bool) (ts : String)
    (hargs : args.lookup "executable" = some (.str p)) (hp : p ≠ "")
    (hex : path_exists (.str p) = false) :
    (s.handle_command c "init" args fd path_exists spawnOk ts).1.status = s.status
    ∧ (s.handle_command c "init" args fd path_exists spawnOk ts).1.stack = s.stack
    ∧ (s.handle_command c "init" args fd path_exists spawnOk ts).1.«variables» =
        s.«variables»
    ∧ (s.handle_command c "init" args fd path_exists spawnOk ts).1.location =
        s.location
    ∧ (s.handle_command c "init" args fd path_exists spawnOk ts).2.1.process =
        c.process
    ∧ (s.handle_command c "init" args fd path_exists spawnOk ts).2.1.running =
        c.running
    ∧ (s.handle_command c "init" args fd path_exists spawnOk ts).2.2 =
        [Out.sent s.websocket
           (logMsg "error" ("Failed to start GDB: Binary not found: " ++ p) ts),
         Out.sent s.websocket (.dict [("type", .str "error"),
           ("payload", .str ("Startup Failed: Binary not found: " ++ p))])]
    ∧ (∀ (s2 : GDBSession) (ev : Val) (ts2 : String),
         ev.get "type" = some (.str "result") →
         ((s2.on_gdb_event ev ts2).1).status = s2.status) := by
  have ht : (Val.str p).truthy = true := str_truthy_of_ne p hp
  refine ⟨?_, ?_, ?_, ?_, ?_, ?_, ?_,
          fun s2 ev ts2 h => result_event_keeps_status s2 ev ts2 h⟩
  all_goals
    simp [GDBSession.handle_command, hargs, NativeGDBController.start,
          optTruthy, optVal, ht, hex, StartError.msg, Val.pystr,
          GDBSession.log, GDBSession.send_json, logMsg, ← String.append_assoc]

/-- C1 counterexample: with a transport (number 0) attached, one log
entry is delivered to it live; after `detach` and `attach` of a new
transport (number 1) the very same entry is delivered again during replay.
This refutes "never delivers a log entry that was already delivered to a
transport before the detach". -/
theorem attach_replays_delivered_entry :
    (GDBSession.log
       { GDBSession.init0 with websocket := some 0 } "info" "hello" "t1").2 =
      [Out.sent (some 0) (logMsg "info" "hello" "t1")]
    ∧ (((GDBSession.log { GDBSession.init0 with websocket := some 0 }
          "info" "hello" "t1").1.detach).attach 1).2 =
        [Out.sent (some 1)
           ((((GDBSession.log { GDBSession.init0 with websocket := some 0 }
                "info" "hello" "t1").1.detach).attach 1).1.to_dict),
         Out.sent (some 1) (logMsg "info" "hello" "t1")] :=
  ⟨rfl, rfl⟩

/-- C1 amended: detaching then attaching a new transport delivers first
the exact last-known full state snapshot, then the most recent
min(10, history length) log entries in their original chronological order (a
suffix of the history); the replay is taken from the history irrespective of
earlier deliveries, so entries already delivered before the detach may be
delivered again. -/
theorem attach_after_detach_replay (s : GDBSession) (ws : Nat) :
    ((s.detach).attach ws).2 =
      Out.sent (some ws) (((s.detach).attach ws).1.to_dict) ::
        (s.log_history.drop (s.log_history.length - 10)).map
          (fun e => Out.sent (some ws) e)
    ∧ ((s.detach).attach ws).1.to_dict = s.to_dict
    ∧ (s.log_history.drop (s.log_history.length - 10)).length =
        min 10 s.log_history.length
    ∧ s.log_history.drop (s.log_history.length - 10) <:+ s.log_history := by
  refine ⟨rfl, rfl, ?_, List.drop_suffix _ _⟩
  rw [List.length_drop]
  omega

/-- A parse function standing in for pygdbmi in counterexamples: every line
parses to a fixed notify record. -/
def constNotifyParse : String → Option Val :=
  fun _ => some (.dict [("type", .str "notify"), ("message", .str "running"),
                        ("payload", .dict [])])

/-- C3 counterexample: a zero-length read makes the loop exit, but the
channel is not marked closed — the loop body never assigns the running flag
or the master descriptor, so the controller state after the loop equals the
state before it, which is still open; a subsequent write still writes, and
restarting the loop resumes reading and dispatching events. -/
theorem eof_does_not_close_channel :
    (NativeGDBController.run_event_loop constNotifyParse ⟨true, true, some 5⟩
       "" [.chunk ""]).2 = .eofBreak
    ∧ NativeGDBController.isOpen ⟨true, true, some 5⟩ = true
    ∧ ((⟨true, true, some 5⟩ : NativeGDBController).write "-exec-next").2 =
        ["-exec-next" ++ "\n"]
    ∧ (NativeGDBController.run_event_loop constNotifyParse ⟨true, true, some 5⟩
        "" [.chunk "line\n"]).1 =
        [.dict [("type", .str "notify"), ("message", .str "running"),
                ("payload", .dict [])]] :=
  ⟨rfl, rfl, rfl, rfl⟩

/-- C3 amended: on every run of the read loop over an open running
channel, a zero-length read makes the loop exit immediately, dispatching
nothing; nothing marks the channel closed, so the channel (whose state the
loop never assigns) is still open and a write afterwards still writes. -/
theorem eof_exits_loop_channel_still_open (pr : String → Option Val)
    (c : NativeGDBController) (buffer : String) (rest : List ReadStep)
    (cmd : String) (hrun : c.running = true)
    (hfd : fdTruthy c.master_fd = true) :
    NativeGDBController.run_event_loop pr c buffer (.chunk "" :: rest) =
      ([], .eofBreak)
    ∧ c.isOpen = true
    ∧ (c.write cmd).2 = [cmd ++ "\n"] := by
  refine ⟨?_, ?_, ?_⟩
  · have he : "".isEmpty = true := rfl
    simp [NativeGDBController.run_event_loop, hrun, hfd, he]
  · simpa [NativeGDBController.isOpen] using hfd
  · simp [NativeGDBController.write, hfd]

/-- Witness for the amended C3 at a concrete open channel. -/
theorem eof_exits_loop_channel_still_open_witness :
    ((⟨true, true, some 5⟩ : NativeGDBController).running = true
     ∧ fdTruthy (⟨true, true, some 5⟩ : NativeGDBController).master_fd = true)
    ∧ NativeGDBController.run_event_loop constNotifyParse ⟨true, true, some 5⟩
        "buf" [.chunk "", .chunk "x\n"] = ([], .eofBreak) :=
  ⟨⟨rfl, rfl⟩,
   (eof_exits_loop_channel_still_open constNotifyParse ⟨true, true, some 5⟩
      "buf" [.chunk "x\n"] "cmd" rfl rfl).1⟩

/-- The raw pygdbmi record of a log-stream line, used for C7. -/
def logRecord : Val :=
  .dict [("type", .str "log"), ("message", .null), ("payload", .str "text")]

/-- C7 counterexample: a log-only record is not dropped by the parser:
`_parse_line` falls through to returning the record itself, and the read
loop dispatches it to the event handler. -/
theorem log_record_is_dispatched :
    mapParsedRecord logRecord = some logRecord
    ∧ NativeGDBController.parse_line (fun _ => some logRecord) "&text" =
        some logRecord
    ∧ (NativeGDBController.run_event_loop (fun _ => some logRecord)
         ⟨true, true, some 5⟩ "" [.chunk "&text\n"]).1 = [logRecord] :=
  ⟨rfl, rfl, rfl⟩

/-- C7 amended: output-only records are parsed but produce no Event
(dropped, nothing dispatched); log-only records are returned by the parser
unchanged and dispatched to the event handler, where the session ignores
them (no state change, no emission). -/
theorem output_dropped_log_forwarded (parsed : Val) (s : GDBSession)
    (ts : String) (htr : parsed.truthy = true) :
    (parsed.get "type" = some (.str "output") → mapParsedRecord parsed = none)
    ∧ (parsed.get "type" = some (.str "log") →
        mapParsedRecord parsed = some parsed
        ∧ s.on_gdb_event parsed ts = (s, [])) := by
  constructor
  · intro h
    unfold mapParsedRecord
    rw [h]
    rfl
  · intro h
    have f1 : (some (Val.str "log") == some (Val.str "console")) = false := rfl
    have f2 : (some (Val.str "log") == some (Val.str "notify")) = false := rfl
    have f3 : (some (Val.str "log") == some (Val.str "result")) = false := rfl
    constructor
    · unfold mapParsedRecord
      rw [h]
      rfl
    · simp only [GDBSession.on_gdb_event, htr, h, f1, f2, f3, Bool.not_true,
                 Bool.false_eq_true, if_false]

/-- Witness for the amended C7 at the concrete log record. -/
theorem output_dropped_log_forwarded_witness :
    (logRecord.truthy = true ∧ logRecord.get "type" = some (Val.str "log"))
    ∧ (mapParsedRecord logRecord = some logRecord
       ∧ GDBSession.init0.on_gdb_event logRecord "t0" =
           (GDBSession.init0, [])) :=
  ⟨⟨rfl, rfl⟩,
   (output_dropped_log_forwarded logRecord GDBSession.init0 "t0" rfl).2 rfl⟩

/-- Witness for C5 at a concrete missing path. -/
theorem init_missing_executable_witness :
    (List.lookup "executable" [("executable", Val.str "/nonexistent/path")] =
        some (Val.str "/nonexistent/path")
     ∧ "/nonexistent/path" ≠ ""
     ∧ (fun _ => false : Val → Bool) (.str "/nonexistent/path") = false)
    ∧ (GDBSession.init0.handle_command NativeGDBController.init0 "init"
         [("executable", Val.str "/nonexistent/path")] 5 (fun _ => false) true
         "t0").1.status = "Ready"
    ∧ (GDBSession.init0.handle_command NativeGDBController.init0 "init"
         [("executable", Val.str "/nonexistent/path")] 5 (fun _ => false) true
         "t0").2.1.process = false :=
  ⟨⟨rfl, by decide, rfl⟩,
   (init_missing_executable GDBSession.init0 NativeGDBController.init0
      [("executable", Val.str "/nonexistent/path")] "/nonexistent/path" 5
      (fun _ => false) true "t0" rfl (by decide) rfl).1,
   (init_missing_executable GDBSession.init0 NativeGDBController.init0
      [("executable", Val.str "/nonexistent/path")] "/nonexistent/path" 5
      (fun _ => false) true "t0" rfl (by decide) rfl).2.2.2.2.1⟩

/-- C6 counterexample: a notify event with message "error" is silently
ignored — the state (including the log history) is unchanged and nothing is
emitted — because the error-handling block lives inside the result branch of
the handler.  This refutes the claim that such an event takes the error
handling path (error-level log entry plus error-typed emission). -/
theorem notify_error_is_ignored :
    GDBSession.on_gdb_event { GDBSession.init0 with websocket := some 0 }
      (.dict [("type", .str "notify"), ("message", .str "error"),
              ("payload", .dict [("msg", .str "boom")])]) "t0" =
      ({ GDBSession.init0 with websocket := some 0 }, []) :=
  rfl

/-- A result record with message "error" and payload `p`, as parsed from a
caret error line (which carries no truthy token). -/
def resultErrorEvent (p : List (String × Val)) : Val :=
  .dict [("type", .str "result"), ("message", .str "error"),
         ("payload", .dict p)]

/-- C6 amended: a notify event with message "error" is ignored (no log
entry, no emission, no state change); the error handling path belongs to
result events only — a result event whose payload carries a truthy msg field
and none of the recognized success fields (bkpt, name, children) appends an
error-level log entry to the history and emits an error-typed message,
leaving the status unchanged. -/
theorem notify_error_ignored_result_error_handled (s : GDBSession)
    (ts : String) (p : List (String × Val)) (m : Val)
    (hmsg : List.lookup "msg" p = some m) (hm : m.truthy = true)
    (hbk : optTruthy (List.lookup "bkpt" p) = false)
    (hnm : optTruthy (List.lookup "name" p) = false)
    (hch : optTruthy (List.lookup "children" p) = false) :
    (∀ (q : List (String × Val)),
       s.on_gdb_event (.dict [("type", .str "notify"),
         ("message", .str "error"), ("payload", .dict q)]) ts = (s, []))
    ∧ (s.on_gdb_event (resultErrorEvent p) ts).1.status = s.status
    ∧ (s.on_gdb_event (resultErrorEvent p) ts).1.log_history =
        (if (s.log_history ++
              [logMsg "error" ("GDB Error: " ++ m.pystr) ts]).length > 50
         then (s.log_history ++
              [logMsg "error" ("GDB Error: " ++ m.pystr) ts]).drop 1
         else s.log_history ++
              [logMsg "error" ("GDB Error: " ++ m.pystr) ts])
    ∧ (s.on_gdb_event (resultErrorEvent p) ts).2 =
        [Out.sent s.websocket (logMsg "error" ("GDB Error: " ++ m.pystr) ts),
         Out.sent s.websocket (.dict [("type", .str "error"),
                                      ("payload", m)])] := by
  have e0 : (resultErrorEvent p).truthy = true := rfl
  have gt : Val.get (resultErrorEvent p) "type" = some (Val.str "result") := rfl
  have gm : Val.get (resultErrorEvent p) "message" = some (Val.str "error") := rfl
  have gp : (Val.get (resultErrorEvent p) "payload").getD (Val.dict []) =
      Val.dict p := rfl
  have gtk : Val.get (resultErrorEvent p) "token" = none := rfl
  have f1 : (some (Val.str "result") == some (Val.str "console")) = false := rfl
  have f2 : (some (Val.str "result") == some (Val.str "notify")) = false := rfl
  have f3 : (some (Val.str "result") == some (Val.str "result")) = true := rfl
  have hd : s.resultDispatch (Val.dict p) none = (s, []) := rfl
  have bm : optTruthy (Val.get (Val.dict p) "msg") = true := by
    rw [show Val.get (Val.dict p) "msg" = some m from hmsg]
    simp [optTruthy, optVal, hm]
  have bv : optVal (Val.get (Val.dict p) "msg") = m := by
    rw [show Val.get (Val.dict p) "msg" = some m from hmsg]
    rfl
  have bbk : optTruthy (Val.get (Val.dict p) "bkpt") = false := hbk
  have bnm : optTruthy (Val.get (Val.dict p) "name") = false := hnm
  have bch : optTruthy (Val.get (Val.dict p) "children") = false := hch
  refine ⟨fun q => rfl, ?_, ?_, ?_⟩
  all_goals
    simp only [GDBSession.on_gdb_event, e0, gt, gm, gp, gtk, f1, f2, f3,
               Bool.not_true, Bool.false_eq_true, if_false, if_true, hd,
               GDBSession.resultErrorCheck, bm, bv, bbk, bnm, bch,
               Bool.not_false, Bool.and_true, Bool.and_self, Bool.true_and]
  all_goals
    simp [GDBSession.log, GDBSession.send_json, logMsg]

/-- Witness for the amended C6 at a concrete error payload. -/
theorem notify_error_ignored_result_error_handled_witness :
    (List.lookup "msg" [("msg", Val.str "boom")] = some (Val.str "boom")
     ∧ (Val.str "boom").truthy = true
     ∧ optTruthy (List.lookup "bkpt" [("msg", Val.str "boom")]) = false
     ∧ optTruthy (List.lookup "name" [("msg", Val.str "boom")]) = false
     ∧ optTruthy (List.lookup "children" [("msg", Val.str "boom")]) = false)
    ∧ (GDBSession.init0.on_gdb_event
         (resultErrorEvent [("msg", Val.str "boom")]) "t0").2 =
        [Out.sent none (logMsg "error" ("GDB Error: " ++
            (Val.str "boom").pystr) "t0"),
         Out.sent none (.dict [("type", .str "error"),
                               ("payload", .str "boom")])] :=
  ⟨⟨rfl, rfl, rfl, rfl, rfl⟩,
   (notify_error_ignored_result_error_handled GDBSession.init0 "t0"
      [("msg", Val.str "boom")] (.str "boom") rfl rfl rfl rfl rfl).2.2.2⟩

end GDBER
